import Mathlib

/-!
# Verification of the Short-Circuit-Calculation repository

Shallow embedding of the calculation engine, element taxonomy, chain
parser, configuration accessor and database CRUD layer of the
Short-Circuit-Calculation program, together with proofs settling the
frozen specification claims.

Python `Decimal` values are embedded as exact rationals (`ℚ`); each
arithmetic operation of the default `decimal` context (precision 28,
rounding `ROUND_HALF_EVEN`) is the exact rational operation followed by
rounding to 28 significant digits, ties to even.  Binary64 (`float`)
values are likewise a subset of `ℚ`; the transcendental float steps
(`math.sqrt`, `math.pow`) are a parameter of the chain evaluator.
-/

namespace SCC

/-! ## Python `decimal` arithmetic (default context: prec = 28, ROUND_HALF_EVEN) -/

/-- Round a rational to an integer, half to even
(the semantics of `ROUND_HALF_EVEN` at the integer grid).
The floor is taken with `Int.fdiv` so that the definition reduces in
the kernel. -/
def roundHalfEvenInt (x : ℚ) : ℤ :=
  let q : ℤ := Int.fdiv x.num x.den
  let r : ℚ := x - q
  if r < 1/2 then q
  else if 1/2 < r then q + 1
  else if q % 2 = 0 then q else q + 1

/-- `Decimal.__round__` / `round(d, n)`: quantize to `n` fractional
digits with the context rounding `ROUND_HALF_EVEN`. -/
def pyRound (x : ℚ) (n : ℕ) : ℚ :=
  (roundHalfEvenInt (x * ((10 ^ n : ℕ) : ℚ)) : ℚ) / ((10 ^ n : ℕ) : ℚ)

/-- Number of base-10 digits of a natural number (0 for 0), by
fuel-bounded structural recursion so that it reduces in the kernel. -/
def digitsCount (n : ℕ) : ℕ := go 310 n where
  go : ℕ → ℕ → ℕ
    | 0, _ => 0
    | f + 1, n => if n = 0 then 0 else go f (n / 10) + 1

/-- Decimal exponent of a nonzero rational: the unique `e` with
`10 ^ (e - 1) ≤ |x| < 10 ^ e`. -/
def sigExp (x : ℚ) : ℤ :=
  let a : ℤ := (digitsCount x.num.natAbs : ℤ) - (digitsCount x.den : ℤ)
  -- `|x| < 10 ^ a` tested at the level of numerator and denominator
  if x.num.natAbs * 10 ^ (-a).toNat < x.den * 10 ^ a.toNat then a else a + 1

/-- Rounding of an exact rational result to the 28 significant digits of
the default `decimal` context, ties to even. -/
def ctxRound (x : ℚ) : ℚ :=
  if x = 0 then 0
  else
    let e : ℤ := sigExp x
    if 28 ≤ e then
      let p : ℕ := (e - 28).toNat
      (roundHalfEvenInt (x / ((10 ^ p : ℕ) : ℚ)) : ℚ) * ((10 ^ p : ℕ) : ℚ)
    else
      let p : ℕ := (28 - e).toNat
      (roundHalfEvenInt (x * ((10 ^ p : ℕ) : ℚ)) : ℚ) / ((10 ^ p : ℕ) : ℚ)

/-- Context addition of two `Decimal`s. -/
def decAdd (a b : ℚ) : ℚ := ctxRound (a + b)

/-- Context multiplication of two `Decimal`s. -/
def decMul (a b : ℚ) : ℚ := ctxRound (a * b)

/-- Context division of two `Decimal`s (callers guard the zero divisor,
which the `decimal` module traps as `DivisionByZero`). -/
def decDiv (a b : ℚ) : ℚ := ctxRound (a / b)

/-! ## Python exceptions -/

/-- The Python exceptions raised by the embedded code paths. -/
inductive PyErr where
  | typeError (msg : String)
  | valueError (msg : String)
  | divisionByZero
  | runtimeError (msg : String)
  | keyError (msg : String)
  deriving DecidableEq, Repr

/-! ## Binary64 (`float`) steps of the evaluator

`math.pow`, `math.sqrt` and the float sum in
`ElemChain.__three_phase_summary_resistance` operate on binary64
values, a subset of `ℚ`.  The evaluator is parameterised by these four
operations; theorems quantify over the parameter, and concrete
witnesses instantiate it with `exactFM`, which agrees with IEEE-754
binary64 at every input whose operands and result are exactly
representable (IEEE `sqrt` and the basic operations are correctly
rounded, hence exact there). -/
structure FloatModel where
  /-- `float(Decimal)` conversion. -/
  toFloat : ℚ → ℚ
  /-- `math.pow(x, 2)`. -/
  pow2 : ℚ → ℚ
  /-- binary64 `+`. -/
  fadd : ℚ → ℚ → ℚ
  /-- `math.sqrt`. -/
  fsqrt : ℚ → ℚ

/-- Integer square root (rounded down) by fuel-bounded bisection, so
that it reduces in the kernel. -/
def natSqrtAux (n : ℕ) : ℕ → ℕ → ℕ → ℕ
  | 0, lo, _ => lo
  | f + 1, lo, hi =>
    let mid := (lo + hi) / 2
    if mid = lo then lo
    else if mid * mid ≤ n then natSqrtAux n f mid hi else natSqrtAux n f lo mid

/-- Integer square root (rounded down). -/
def natSqrt (n : ℕ) : ℕ := natSqrtAux n 700 0 (n + 1)

/-- Exact rational square root: the value of IEEE `sqrt` at perfect
squares (where the correctly rounded result is exact). -/
def exactSqrt (x : ℚ) : ℚ := (natSqrt x.num.natAbs : ℚ) / (natSqrt x.den : ℚ)

/-- Float model that is the identity on exactly representable values:
used to evaluate concrete catalogs whose float steps are all exact. -/
def exactFM : FloatModel :=
  { toFloat := id, pow2 := fun x => x * x, fadd := (· + ·), fsqrt := exactSqrt }

/-- The exact rational value of the binary64 number `math.sqrt(3)`
(significand 3900231685776981, exponent −51). -/
def sqrtThreeFloat : ℚ := (3900231685776981 : ℚ) / 2 ^ 51

/-- `sqrtThreeFloat` is the round-to-nearest binary64 value of `√3`:
it is the grid point `m / 2^51` whose square is closest to 3. -/
theorem sqrtThreeFloat_correct :
    ((2 * 3900231685776981 - 1) ^ 2 < 3 * 2 ^ 104 ∧
     3 * 2 ^ 104 < (2 * 3900231685776981 + 1) ^ 2 : Prop) := by
  constructor <;> norm_num

/-! ## Element taxonomy (`shortcircuitcalc/tools/elements.py`) -/

/-- The element variants `T, W, Q, QF, QS, R, Line, Arc`.
`QF`/`QS` are the `Q` dataclass with `device_type` set to
`'Автомат'`/`'Рубильник'` in `__post_init__`; `Line`/`Arc` are the `R`
dataclass with `contact_type` set to `'РУ'`/`'Дуга'`.  `T.voltage` is
populated from `SYSTEM_VOLTAGE_IN_KILOVOLTS` at construction. -/
inductive Element where
  | T (power : ℤ) (vectorGroup : String) (voltage : ℚ)
  | W (mark : String) (amount : ℤ) (rangeVal : ℚ) (length : ℤ)
  | Q (currentValue : ℤ) (deviceType : String)
  | QF (currentValue : ℤ)
  | QS (currentValue : ℤ)
  | R (contactType : String)
  | Line
  | Arc
  deriving DecidableEq, Repr

/-- The four impedance columns of the fact tables. -/
inductive Attr where
  | r1 | x1 | r0 | x0
  deriving DecidableEq, Repr

/-- The catalog database: for each fact table, a lookup from the
natural key and column to the stored scalar (`none` both when no row
matches and when the matching row holds SQL NULL, exactly as
`session.execute(...).scalar()` returns `None` in either case). -/
structure Catalog where
  transformer : ℤ → ℚ → String → Attr → Option ℚ
  cable : String → ℤ → ℚ → Attr → Option ℚ
  currentBreaker : String → ℤ → Attr → Option ℚ
  otherContact : String → Attr → Option ℚ

/-- `int(x)` truncation toward zero (Lean `Int` division is
T-division, matching Python's `int(Decimal)`). -/
def ratTrunc (x : ℚ) : ℤ := x.num / (x.den : ℤ)

/-- Render a decimal-terminating rational in plain decimal notation
(the shape `str(Decimal)` / `repr(float)` produce for the terminating
values that occur in this program). -/
def ratRepr (x : ℚ) : String :=
  match (List.range 65).find? (fun k => (x * 10 ^ k).den = 1) with
  | some 0 => toString x.num
  | some k =>
      let n := (x * 10 ^ k).num
      let sign := if n < 0 then "-" else ""
      let a := n.natAbs
      sign ++ toString (a / 10 ^ k) ++ "." ++
        (let frac := toString (a % 10 ^ k)
         String.mk (List.replicate (k - frac.length) '0') ++ frac)
  | none => toString x

/-- `__str__` of every element variant. -/
def strElem : Element → String
  | .T p vg u => "T " ++ toString p ++ "/" ++ ratRepr u ++ " (" ++ vg ++ ")"
  | .W m am rv len =>
      if (ratTrunc rv : ℚ) = rv then
        m ++ " " ++ toString am ++ "х" ++ toString (ratTrunc rv) ++ " " ++ toString len ++ "m"
      else
        m ++ " " ++ toString am ++ "х" ++ ratRepr rv ++ " " ++ toString len ++ "m"
  | .Q c _ => "Q " ++ toString c ++ "A"
  | .QF c => "QF " ++ toString c ++ "A"
  | .QS c => "QS " ++ toString c ++ "A"
  | .R _ => "R"
  | .Line => "РУ"
  | .Arc => "Дуга"

/-- `_sql_query` of each variant: the catalog lookup, returning the raw
scalar (possibly `None`).  For `W` the stored per-km value is scaled by
`query_val / 1000 * self.length` *inside* `_sql_query`, so a `None`
scalar raises `TypeError` there, before the caller's null check. -/
def sqlQuery (cat : Catalog) (e : Element) (a : Attr) : Except PyErr (Option ℚ) :=
  match e with
  | .T p vg u => .ok (cat.transformer p u vg a)
  | .W m am rv len =>
      match cat.cable m am rv a with
      | none => .error (.typeError "unsupported operand type(s) for /: 'NoneType' and 'int'")
      | some v => .ok (some (decMul (decDiv v 1000) (len : ℚ)))
  | .Q c d => .ok (cat.currentBreaker d c a)
  | .QF c => .ok (cat.currentBreaker "Автомат" c a)
  | .QS c => .ok (cat.currentBreaker "Рубильник" c a)
  | .R ct => .ok (cat.otherContact ct a)
  | .Line => .ok (cat.otherContact "РУ" a)
  | .Arc => .ok (cat.otherContact "Дуга" a)

/-- `BaseElement.resistance_r1`. -/
def resistance_r1 (cat : Catalog) (e : Element) : Except PyErr ℚ :=
  match sqlQuery cat e .r1 with
  | .error er => .error er
  | .ok none =>
      .error (.valueError ("The resistance R1 for '" ++ strElem e ++ "' is not found in the database!"))
  | .ok (some v) => .ok v

/-- `BaseElement.reactance_x1`. -/
def reactance_x1 (cat : Catalog) (e : Element) : Except PyErr ℚ :=
  match sqlQuery cat e .x1 with
  | .error er => .error er
  | .ok none =>
      .error (.valueError ("The reactance X1 for '" ++ strElem e ++ "' is not found in the database!"))
  | .ok (some v) => .ok v

/-- `BaseElement.resistance_r0`. -/
def resistance_r0 (cat : Catalog) (e : Element) : Except PyErr ℚ :=
  match sqlQuery cat e .r0 with
  | .error er => .error er
  | .ok none =>
      .error (.valueError ("The resistance R0 for '" ++ strElem e ++ "' is not found in the database!"))
  | .ok (some v) => .ok v

/-- `BaseElement.reactance_x0`. -/
def reactance_x0 (cat : Catalog) (e : Element) : Except PyErr ℚ :=
  match sqlQuery cat e .x0 with
  | .error er => .error er
  | .ok none =>
      .error (.valueError ("The reactance X0 for '" ++ strElem e ++ "' is not found in the database!"))
  | .ok (some v) => .ok v

/-! ## Chains (`ElemChain`) -/

/-- A chain is either an ordered sequence of elements or an ordered
mapping (Python `dict`, insertion ordered) of name → element. -/
inductive ElemChain where
  | seq (l : List Element)
  | map (l : List (String × Element))
  deriving DecidableEq, Repr

/-- The elements iterated by the impedance sums (`self.obj` for a
sequence, `self.obj.values()` for a mapping). -/
def ElemChain.elems : ElemChain → List Element
  | .seq l => l
  | .map l => l.map Prod.snd

/-- `len(chain)`. -/
def ElemChain.length : ElemChain → ℕ
  | .seq l => l.length
  | .map l => l.length

/-- `chain[:k]` (`__getitem__` with `slice(None, k)`): the sequence
form slices the list, the mapping form rebuilds a dict from the first
`k` items. -/
def ElemChain.sliceTo : ElemChain → ℕ → ElemChain
  | .seq l, k => .seq (l.take k)
  | .map l, k => .map (l.take k)

/-- The global configuration read by the evaluator:
`SYSTEM_VOLTAGE_IN_KILOVOLTS` and `CALCULATIONS_ACCURACY`. -/
structure Config where
  U : ℚ
  acc : ℕ

/-- `functools.reduce(lambda x, y: x + y, gen)` over the generator of a
per-element `Decimal` column: no initial value, so the empty chain
raises `TypeError`; each `+` is a context `Decimal` addition; the first
element lookup that raises propagates. -/
def reduceDecAdd (f : Element → Except PyErr ℚ) : List Element → Except PyErr ℚ
  | [] => .error (.typeError "reduce() of empty iterable with no initial value")
  | e :: es => do
      let v0 ← f e
      es.foldlM (fun acc e' => do
        let v ← f e'
        pure (decAdd acc v)) v0

/-- `ElemChain.__three_phase_summary_resistance`:
`Decimal(math.sqrt(math.pow(Σr1, 2) + math.pow(Σx1, 2)))`
(`math.pow` converts the `Decimal` sums to `float`; the `Decimal(float)`
conversion at the end is exact). -/
def threePhaseZ (fm : FloatModel) (cat : Catalog) (c : ElemChain) : Except PyErr ℚ :=
  match reduceDecAdd (resistance_r1 cat) c.elems with
  | .error e => .error e
  | .ok sr =>
    match reduceDecAdd (reactance_x1 cat) c.elems with
    | .error e => .error e
    | .ok sx => .ok (fm.fsqrt (fm.fadd (fm.pow2 (fm.toFloat sr)) (fm.pow2 (fm.toFloat sx))))

/-- `ElemChain.__one_phase_summary_resistance`:
`Decimal(math.sqrt(math.pow(2*Σr1 + Σr0, 2) + math.pow(2*Σx1 + Σx0, 2)))`. -/
def onePhaseZ (fm : FloatModel) (cat : Catalog) (c : ElemChain) : Except PyErr ℚ :=
  match reduceDecAdd (resistance_r1 cat) c.elems with
  | .error e => .error e
  | .ok sr1 =>
    match reduceDecAdd (resistance_r0 cat) c.elems with
    | .error e => .error e
    | .ok sr0 =>
      match reduceDecAdd (reactance_x1 cat) c.elems with
      | .error e => .error e
      | .ok sx1 =>
        match reduceDecAdd (reactance_x0 cat) c.elems with
        | .error e => .error e
        | .ok sx0 =>
          .ok (fm.fsqrt (fm.fadd (fm.pow2 (fm.toFloat (decAdd (decMul 2 sr1) sr0)))
                                 (fm.pow2 (fm.toFloat (decAdd (decMul 2 sx1) sx0)))))

/-- The exact argument of the final `round` in
`three_phase_current_short_circuit`:
`U / Decimal(math.sqrt(3)) / z₃` (division by a zero summary
resistance is trapped as `DivisionByZero`). -/
def threePhaseRaw (fm : FloatModel) (cat : Catalog) (cfg : Config) (c : ElemChain) :
    Except PyErr ℚ :=
  match threePhaseZ fm cat c with
  | .error e => .error e
  | .ok z =>
    if z = 0 then .error .divisionByZero
    else .ok (decDiv (decDiv cfg.U sqrtThreeFloat) z)

/-- `ElemChain.three_phase_current_short_circuit`:
`round(U / Decimal(math.sqrt(3)) / z₃, CALCULATIONS_ACCURACY)`. -/
def three_phase_current_short_circuit (fm : FloatModel) (cat : Catalog) (cfg : Config)
    (c : ElemChain) : Except PyErr ℚ :=
  match threePhaseZ fm cat c with
  | .error e => .error e
  | .ok z =>
    if z = 0 then .error .divisionByZero
    else .ok (pyRound (decDiv (decDiv cfg.U sqrtThreeFloat) z) cfg.acc)

/-- `ElemChain.two_phase_current_short_circuit`:
`round(Decimal(math.sqrt(3)) / 2 * I₃, CALCULATIONS_ACCURACY)` where
`I₃` is the (already rounded) three-phase current property. -/
def two_phase_current_short_circuit (fm : FloatModel) (cat : Catalog) (cfg : Config)
    (c : ElemChain) : Except PyErr ℚ :=
  match three_phase_current_short_circuit fm cat cfg c with
  | .error e => .error e
  | .ok i3 => .ok (pyRound (decMul (decDiv sqrtThreeFloat 2) i3) cfg.acc)

/-- The exact argument of the final `round` in
`two_phase_current_short_circuit`:
`Decimal(math.sqrt(3)) / 2 * I₃` over the already-rounded three-phase
current. -/
def twoPhaseRaw (fm : FloatModel) (cat : Catalog) (cfg : Config) (c : ElemChain) :
    Except PyErr ℚ :=
  match three_phase_current_short_circuit fm cat cfg c with
  | .error e => .error e
  | .ok i3 => .ok (decMul (decDiv sqrtThreeFloat 2) i3)

/-- The exact argument of the final `round` in
`one_phase_current_short_circuit`: `Decimal(math.sqrt(3)) * U / z₁`. -/
def onePhaseRaw (fm : FloatModel) (cat : Catalog) (cfg : Config) (c : ElemChain) :
    Except PyErr ℚ :=
  match onePhaseZ fm cat c with
  | .error e => .error e
  | .ok z =>
    if z = 0 then .error .divisionByZero
    else .ok (decDiv (decMul sqrtThreeFloat cfg.U) z)

/-- `ElemChain.one_phase_current_short_circuit`:
`round(Decimal(math.sqrt(3)) * U / z₁, CALCULATIONS_ACCURACY)`. -/
def one_phase_current_short_circuit (fm : FloatModel) (cat : Catalog) (cfg : Config)
    (c : ElemChain) : Except PyErr ℚ :=
  match onePhaseZ fm cat c with
  | .error e => .error e
  | .ok z =>
    if z = 0 then .error .divisionByZero
    else .ok (pyRound (decDiv (decMul sqrtThreeFloat cfg.U) z) cfg.acc)

/-- Decidable equality for `Except` results (not derived in core). -/
instance instDecEqExcept {ε α : Type} [DecidableEq ε] [DecidableEq α] :
    DecidableEq (Except ε α) := fun a b =>
  match a, b with
  | .error e, .error f =>
      if h : e = f then isTrue (by rw [h]) else isFalse (by intro hc; cases hc; exact h rfl)
  | .error _, .ok _ => isFalse (by intro hc; cases hc)
  | .ok _, .error _ => isFalse (by intro hc; cases hc)
  | .ok v, .ok w =>
      if h : v = w then isTrue (by rw [h]) else isFalse (by intro hc; cases hc; exact h rfl)

/-! ## `session_scope` (`shortcircuitcalc/tools/tools.py`)

The context manager is embedded as a function from the outcome of its
`with`-body to the trace of session operations it performs and the
exception (if any) that propagates to the caller.  Exceptions are a
kind (`OperationalError` or any other type, named by a string) plus a
message. -/

/-- A Python exception escaping a `session_scope` body. -/
inductive PyExc where
  | operationalError (msg : String)
  | other (excType : String) (msg : String)
  deriving DecidableEq, Repr

/-- Outcome of the `with session_scope() as session:` body. -/
inductive BodyOutcome where
  | normal
  | raises (e : PyExc)
  deriving DecidableEq, Repr

/-- Session operations observable in a `session_scope` run. -/
inductive SessAct where
  | pragmaForeignKeys
  | commit
  | rollback
  | logError
  | close
  deriving DecidableEq, Repr

/-- `session_scope(logs)`: open a session; on SQLite execute the
foreign-keys pragma; run the body; commit on normal exit.  Only
`sa.exc.OperationalError` is caught: it is rolled back, optionally
logged and re-raised; any other exception propagates uncaught.  The
`finally` block closes the session on every path. -/
def session_scope (sqliteBackend : Bool) (logs : Bool) (body : BodyOutcome) :
    List SessAct × Option PyExc :=
  let pre : List SessAct := if sqliteBackend then [.pragmaForeignKeys] else []
  match body with
  | .normal => (pre ++ [.commit, .close], none)
  | .raises e =>
    match e with
    | .operationalError m =>
        (pre ++ [.rollback] ++ (if logs then [.logError] else []) ++ [.close],
         some (.operationalError m))
    | .other t m => (pre ++ [.close], some (.other t m))

/-! ## `config_manager` (`shortcircuitcalc/tools/tools.py`)

The configuration file is a list of newline-terminated lines.  The
regex `rf'(?P<name>{param}) = (?P<value>.+)\n'` matches the first
position where `param = value` occurs with a nonempty value running to
the end of a line.  The `TypesManager` value conversion (on read) and
formatting (on write) are parameters of the embedding: no claim
depends on them. -/

/-- First match of `param ++ " = " ++ value` (value nonempty, to end
of line) inside one line, returning the value text. -/
def lineValue (param : String) (line : List Char) : Option (List Char) :=
  go line.length line where
  go : ℕ → List Char → Option (List Char)
    | 0, _ => none
    | _ + 1, [] => none
    | f + 1, s@(_ :: tail) =>
      if (param.data ++ " = ".data).isPrefixOf s then
        let rest := s.drop (param.data ++ " = ".data).length
        if rest.isEmpty then none else some rest
      else go f tail

/-- `re.search` of the config pattern over the whole file: the first
line with a match wins. -/
def findConfigMatch (param : String) (file : List (List Char)) : Option (List Char) :=
  file.findSome? (lineValue param)

/-- Replace the matched `param = old` text by `param = new` in the
first matching line (`str.replace(old, new, 1)` acting on the file
contents). -/
def replaceConfigLine (param : String) (newText : List Char) :
    List (List Char) → List (List Char)
  | [] => []
  | line :: rest =>
    match lineValue param line with
    | some _ =>
        (line.take (line.length - (Option.getD (lineValue param line) []).length) ++ newText)
          :: rest
    | none => line :: replaceConfigLine param newText rest

/-- `config_manager(param, new_val)`.  `tm` embeds the `TypesManager`
parse of a matched value; `fmt` embeds the formatting of a written
value.  Returns the produced value (`None` embedded as `none`) and the
resulting file contents. -/
def config_manager {V W : Type} (tm : List Char → V) (fmt : W → List Char)
    (file : List (List Char)) (param : String) (newVal : Option W) :
    Option V × List (List Char) :=
  match findConfigMatch param file, newVal with
  | some matched, none => (some (tm matched), file)
  | none, _ => (none, file)
  | some _, some v => (none, replaceConfigLine param (fmt v) file)

/-! ## `BaseMixin.drop_table` (`ShortCircuitCalc/database/mixins.py`) -/

/-- Log records emitted by the table operations. -/
inductive LogMsg where
  | warning (msg : String)
  | error (msg : String)
  | info (msg : String)
  deriving DecidableEq, Repr

/-- `drop_table(confirm, forced)` over a database state that is the
list of existing table names.  When `confirm` equals the table name
the table is dropped (via the metadata drop, or the dialect-specific
forced statements — both remove the table; a missing table raises
`OperationalError`, which the `except` clause swallows with an info
log).  When `confirm` differs, the `else` branch logs the
'not confirmed' error and executes a bare `raise` with no active
exception, so a `RuntimeError` propagates to the caller (it is not an
`OperationalError`, hence not caught). -/
def drop_table (tables : List String) (tablename : String)
    (confirm : Option String) (forced : Bool) : List String × List LogMsg × Except PyExc Unit :=
  if confirm = some tablename then
    if tables.contains tablename then
      (tables.erase tablename,
       [.warning (if forced then "Table '" ++ tablename ++ "' has been forced deleted."
                  else "Table '" ++ tablename ++ "' has been deleted.")],
       .ok ())
    else
      (tables,
       [.info ("There is no need to delete the table '" ++ tablename ++
               "', it does not exist")],
       .ok ())
  else
    (tables,
     [.error ("Table '" ++ tablename ++ "' has not been deleted. Deleting not confirmed.")],
     .error (.other "RuntimeError" "No active exception to re-raise"))

/-! ## `JoinedMixin.insert_joined_table` (`ShortCircuitCalc/database/mixins.py`)

State of one joined (fact) table and its dimension tables: each
dimension table is its insertion-ordered list of values (the surrogate
id of a value is its 1-based position); the fact table is the list of
inserted rows, each carrying the resolved foreign-key ids and the
remaining payload of the input row. -/

/-- Dimension tables plus fact table of one joined table. -/
structure JoinState (α β : Type) where
  dims : List (List α)
  facts : List (List ℕ × β)
  deriving DecidableEq, Repr

/-- One input row: the dimension values (one per `SUBTABLES` entry, in
order) and the fact payload. -/
structure JoinRow (α β : Type) where
  dims : List α
  fact : β
  deriving DecidableEq, Repr

/-- Per-row dimension phase: for each dimension table, attempt the
INSERT of the row's value (a uniqueness violation —
`sa.exc.IntegrityError` — is swallowed), then resolve the value to the
id of its first occurrence (`.first().id`).  Returns the updated
dimension tables, whether at least one insert succeeded, and the
resolved ids.  The source looks each value up by the dimension's sole
non-key column, so a well-formed row supplies one value per table. -/
def insertDims {α : Type} [DecidableEq α] :
    List (List α) → List α → List (List α) × Bool × List ℕ
  | [], _ => ([], false, [])
  | t :: ts, [] => (t :: ts, false, [])
  | t :: ts, v :: vs =>
      let (t', fresh) := if v ∈ t then (t, false) else (t ++ [v], true)
      let id := t'.indexOf v + 1
      let (ts', f, ids) := insertDims ts vs
      (t' :: ts', fresh || f, id :: ids)

/-- `insert_joined_table(data)`.  The `__temp_insert` helper is defined
once per call, and its `unique` attribute — the freshness flag — is set
when a dimension insert succeeds and never cleared between rows of the
same call; each row's fact row is inserted iff `hasattr(__temp_insert,
'unique')` holds at that point.  Returns the final state and the
per-row freshness reports (`True` = fact row inserted, `False` = the
"not updated: 0 unique" message). -/
def insert_joined_table {α β : Type} [DecidableEq α] (st : JoinState α β)
    (data : List (JoinRow α β)) : JoinState α β × List Bool :=
  go st false data where
  go : JoinState α β → Bool → List (JoinRow α β) → JoinState α β × List Bool
    | st, _, [] => (st, [])
    | st, flag, r :: rs =>
      let (dims', fresh, ids) := insertDims st.dims r.dims
      let flag' := flag || fresh
      let st' : JoinState α β :=
        { dims := dims'
          facts := if flag' then st.facts ++ [(ids, r.fact)] else st.facts }
      let (stFin, reps) := go st' flag' rs
      (stFin, flag' :: reps)

/-! ## Chain-text parser (`ChainsSystem.__parse_obj__`)

The two regexes
`iterable_pattern = r'(?P<type>\w+)\((?P<args>.*?)\)'` and
`mapping_pattern = r'((?P<name>\w+):)\s*(?P<type>\w+)\((?P<args>.*?)\)'`
are embedded as explicit scanners over `List Char`.  `\w` is embedded
as ASCII letters, digits and underscore — the ASCII subset of the
Unicode word characters — which covers every name and type token of
the claims (Cyrillic text occurs only inside argument lists, matched
by `.*?`).  Since `\w+` is greedy and the character after it must not
be a word character (`:` or `(`), the maximal word run is the only
candidate, so the scanners need no backtracking. -/

/-- ASCII word character (`\w`). -/
def isWordChar (c : Char) : Bool := c.isAlphanum || c = '_'

/-- Maximal `\w+` prefix and the remainder. -/
def takeWord : List Char → List Char × List Char
  | [] => ([], [])
  | c :: cs =>
    if isWordChar c then
      let (w, r) := takeWord cs
      (c :: w, r)
    else ([], c :: cs)

/-- Drop the maximal `\s*` prefix. -/
def dropSpaces : List Char → List Char
  | [] => []
  | c :: cs => if c.isWhitespace then dropSpaces cs else c :: cs

/-- `(?P<args>.*?)\)`: the shortest argument text up to a closing
parenthesis on the same line (`.` does not match a newline). -/
def takeArgs : List Char → Option (List Char × List Char)
  | [] => none
  | c :: cs =>
    if c = ')' then some ([], cs)
    else if c = '\n' then none
    else (takeArgs cs).map (fun p => (c :: p.1, p.2))

/-- Try `iterable_pattern` at the head of the input; on success return
(type, args) and the remainder after the match. -/
def matchIterAt (s : List Char) : Option ((List Char × List Char) × List Char) :=
  let (ty, r1) := takeWord s
  if ty.isEmpty then none
  else
    match r1 with
    | '(' :: r2 => (takeArgs r2).map (fun p => ((ty, p.1), p.2))
    | _ => none

/-- Try `mapping_pattern` at the head of the input; on success return
(name, type, args) and the remainder after the match. -/
def matchMapAt (s : List Char) : Option ((List Char × List Char × List Char) × List Char) :=
  let (nm, r1) := takeWord s
  if nm.isEmpty then none
  else
    match r1 with
    | ':' :: r2 =>
      let r3 := dropSpaces r2
      let (ty, r4) := takeWord r3
      if ty.isEmpty then none
      else
        match r4 with
        | '(' :: r5 => (takeArgs r5).map (fun p => ((nm, ty, p.1), p.2))
        | _ => none
    | _ => none

/-- `re.finditer`: leftmost non-overlapping matches, resuming after
each match (every match consumes at least one character, so the input
length bounds the number of scanning steps). -/
def findIter {μ : Type} (f : List Char → Option (μ × List Char)) :
    ℕ → List Char → List μ
  | 0, _ => []
  | _, [] => []
  | fuel + 1, s =>
    match f s with
    | some (m, rest) => m :: findIter f fuel rest
    | none => findIter f fuel (s.drop 1)

/-- The negative lookahead `(?![^(]*\))` fails exactly when a `)`
is visible before any `(` in the remaining text. -/
def seesCloseBeforeOpen : List Char → Bool
  | [] => false
  | '(' :: _ => false
  | ')' :: _ => true
  | _ :: t => seesCloseBeforeOpen t

/-- `re.split(r';\s*(?![^(]*\))', s)`: split at each `;` that is not
inside parentheses, consuming the `;` and the whitespace after it. -/
def splitChains (s : List Char) : List (List Char) :=
  go s.length [] s where
  go : ℕ → List Char → List Char → List (List Char)
    | _, acc, [] => [acc.reverse]
    | 0, acc, rest => [acc.reverse ++ rest]
    | fuel + 1, acc, c :: cs =>
      if c = ';' ∧ ¬seesCloseBeforeOpen cs then
        acc.reverse :: go fuel [] (dropSpaces cs)
      else
        go fuel (c :: acc) cs

/-- `int(str)`: optional surrounding whitespace, optional sign,
nonempty digit run (underscore grouping not modelled). -/
def pyInt (s : String) : Except PyErr ℤ :=
  let t := (dropSpaces s.data).reverse
  let t := (dropSpaces t).reverse
  let (sign, ds) : ℤ × List Char :=
    match t with
    | '-' :: r => (-1, r)
    | '+' :: r => (1, r)
    | r => (1, r)
  if ds.isEmpty ∨ ¬ds.all Char.isDigit then
    .error (.valueError ("invalid literal for int() with base 10: '" ++ s ++ "'"))
  else
    .ok (sign * (ds.foldl (fun n c => 10 * n + (c.toNat - '0'.toNat)) 0 : ℕ))

/-- `Decimal(str)` for the plain literals that occur in chain texts:
optional sign, digits with an optional fractional part. -/
def pyDec (s : String) : Except PyErr ℚ :=
  let (sign, ds) : ℚ × List Char :=
    match s.data with
    | '-' :: r => (-1, r)
    | '+' :: r => (1, r)
    | r => (1, r)
  let intPart := ds.takeWhile Char.isDigit
  let rest := ds.drop intPart.length
  let (fracPart, tail) : List Char × List Char :=
    match rest with
    | '.' :: r => (r.takeWhile Char.isDigit, r.drop (r.takeWhile Char.isDigit).length)
    | r => ([], r)
  if (intPart.isEmpty ∧ fracPart.isEmpty) ∨ ¬tail.isEmpty then
    .error (.valueError ("[<class 'decimal.ConversionSyntax'>]: " ++ s))
  else
    let n : ℕ := (intPart ++ fracPart).foldl (fun n c => 10 * n + (c.toNat - '0'.toNat)) 0
    .ok (sign * ((n : ℚ) / ((10 ^ fracPart.length : ℕ) : ℚ)))

/-- `x.strip('\'\"')`: remove quote characters from both ends. -/
def stripQuotes (s : List Char) : List Char :=
  let isQ : Char → Bool := fun c => c = '\'' ∨ c = '\"'
  ((s.dropWhile isQ).reverse.dropWhile isQ).reverse

/-- `args.split(', ')`: split on the exact two-character separator
(`''.split(', ') == ['']`). -/
def splitArgsSep (s : List Char) : List (List Char) :=
  go s.length [] s where
  go : ℕ → List Char → List Char → List (List Char)
    | _, acc, [] => [acc.reverse]
    | 0, acc, rest => [acc.reverse ++ rest]
    | fuel + 1, acc, c :: cs =>
      if c = ',' ∧ cs.head? = some ' ' then
        acc.reverse :: go fuel [] (cs.drop 1)
      else
        go fuel (c :: acc) cs

/-- `globals()[type](*args)`: construct the element variant named by
`type` from its positional string arguments, coercing each through the
`Validator` descriptor to the declared field type (`int(str)`,
`Decimal(str)`, `str`).  A `T` element takes its `voltage` from the
configuration.  An unknown type name raises `KeyError`; surplus
positional arguments raise `TypeError`.  Elements constructed with
empty or missing fields (the `Validator` default path, which silently
stores `None`) are outside this embedding: no claim exercises them and
such elements cannot match any catalog row. -/
def buildElem (cfgU : ℚ) (ty : String) (args : List String) : Except PyErr Element :=
  match ty, args with
  | "T", [p, vg] => do
      let pz ← pyInt p
      pure (.T pz vg cfgU)
  | "W", [m, am, rv, len] => do
      let amz ← pyInt am
      let rvq ← pyDec rv
      let lenz ← pyInt len
      pure (.W m amz rvq lenz)
  | "Q", [c, d] => do
      let cz ← pyInt c
      pure (.Q cz d)
  | "QF", [c] => do
      let cz ← pyInt c
      pure (.QF cz)
  | "QS", [c] => do
      let cz ← pyInt c
      pure (.QS cz)
  | "R", [ct] => pure (.R ct)
  | "Line", [_] => pure .Line
  | "Arc", [_] => pure .Arc
  | "T", _ | "W", _ | "Q", _ | "QF", _ | "QS", _ | "R", _ | "Line", _ | "Arc", _ =>
      .error (.typeError (ty ++ "() takes a bounded number of positional arguments"))
  | _, _ => .error (.keyError ty)

/-- The argument texts passed to a constructor:
`[x.strip('\'\"') for x in args.split(', ')]`. -/
def parseArgs (args : List Char) : List String :=
  (splitArgsSep args).map (fun a => String.mk (stripQuotes a))

/-- `ChainsSystem.__parse_obj__` on a string input: split the text
into chain chunks; for each chunk take the `mapping_pattern` matches —
if any exist the chunk becomes a mapping chain of exactly those
matches, otherwise the chunk becomes a sequence chain of the
`iterable_pattern` matches.  An exception raised by any element
constructor propagates.  (In the mapping branch the source builds a
`dict`; the claims only use distinct names, for which the insertion
order below is the dict order.) -/
def parse_obj (cfgU : ℚ) (s : String) : Except PyErr (List ElemChain) :=
  (splitChains s.data).mapM (fun chunk =>
    let mm := findIter matchMapAt chunk.length chunk
    if ¬mm.isEmpty then do
      let pairs ← mm.mapM (fun t => do
        let e ← buildElem cfgU (String.mk t.2.1) (parseArgs t.2.2)
        pure (String.mk t.1, e))
      pure (ElemChain.map pairs)
    else do
      let im := findIter matchIterAt chunk.length chunk
      let es ← im.mapM (fun t => buildElem cfgU (String.mk t.1) (parseArgs t.2))
      pure (ElemChain.seq es))

/-! ## Rounding-mode characterisations and concrete fixtures -/

/-- Round a rational to an integer, half away from zero
(`ROUND_HALF_UP` in `decimal` terms): the mode the specification
asserts for the final rounding. -/
def roundHalfAwayInt (x : ℚ) : ℤ :=
  let q : ℤ := Int.fdiv x.num x.den
  let r : ℚ := x - q
  if r < 1/2 then q
  else if 1/2 < r then q + 1
  else if x < 0 then q else q + 1

/-- Quantization to `n` fractional digits, half away from zero. -/
def pyRoundHalfAway (x : ℚ) (n : ℕ) : ℚ :=
  (roundHalfAwayInt (x * ((10 ^ n : ℕ) : ℚ)) : ℚ) / ((10 ^ n : ℕ) : ℚ)

/-- `v` is the quantization of `x` to `n` fractional digits with ties
to even: `v` lies on the grid of multiples of `10 ^ (-n)`, is at
distance at most half a grid step from `x`, and on an exact tie its
numerator on the grid is even.  (Stated independently of the
computable `pyRound`, which is proved to satisfy it.) -/
def IsBankersRound (x : ℚ) (n : ℕ) (v : ℚ) : Prop :=
  (∃ m : ℤ, v = (m : ℚ) / ((10 ^ n : ℕ) : ℚ) ∧
    (|x - v| = 1 / (2 * ((10 ^ n : ℕ) : ℚ)) → m % 2 = 0)) ∧
  |x - v| ≤ 1 / (2 * ((10 ^ n : ℕ) : ℚ))

/-- A catalog whose only row is the `OtherContact` `"K"` with
`r1 = 3, x1 = 4, r0 = x0 = 0`: the float steps of the summary
resistance are then exact (`√(3² + 4²) = 5`). -/
def catContactK : Catalog :=
  { transformer := fun _ _ _ _ => none
    cable := fun _ _ _ _ => none
    currentBreaker := fun _ _ _ => none
    otherContact := fun ct a =>
      if ct = "K" then
        match a with
        | .r1 => some 3
        | .x1 => some 4
        | .r0 => some 0
        | .x0 => some 0
      else none }

/-- An empty catalog (every lookup misses). -/
def catEmpty : Catalog :=
  { transformer := fun _ _ _ _ => none
    cable := fun _ _ _ _ => none
    currentBreaker := fun _ _ _ => none
    otherContact := fun _ _ => none }

/-- Configuration `SYSTEM_VOLTAGE_IN_KILOVOLTS = Decimal('8.7')`,
`CALCULATIONS_ACCURACY = 26`: the three-phase pipeline then hits an
exact rounding tie. -/
def cfgTie : Config := { U := 87/10, acc := 26 }

/-- The one-element chain over the `"K"` contact. -/
def chainK : ElemChain := .seq [.R "K"]

/-! ## Helper lemmas -/

/-- The floor used by the rounding routines is the rational floor. -/
theorem fdiv_num_den (y : ℚ) : Int.fdiv y.num y.den = ⌊y⌋ := by
  rw [Int.fdiv_eq_ediv _ (by positivity), Rat.floor_def]

/-- `roundHalfEvenInt` written through the rational floor. -/
theorem roundHalfEvenInt_eq (y : ℚ) :
    roundHalfEvenInt y =
      if y - ⌊y⌋ < 1/2 then ⌊y⌋
      else if 1/2 < y - ⌊y⌋ then ⌊y⌋ + 1
      else if ⌊y⌋ % 2 = 0 then ⌊y⌋ else ⌊y⌋ + 1 := by
  unfold roundHalfEvenInt
  rw [fdiv_num_den]

/-- Scaling a bound by a positive denominator. -/
theorem div_le_half_div {a N : ℚ} (hN : 0 < N) (h : a ≤ 1/2) : a / N ≤ 1 / (2*N) := by
  rw [div_le_div_iff₀ hN (by positivity)]
  nlinarith [mul_nonneg (by linarith : (0:ℚ) ≤ 1/2 - a) (le_of_lt hN)]

/-- A distance that equals half a grid step pins the fraction to 1/2. -/
theorem eq_half_of_div {a N : ℚ} (hN : 0 < N) (h : a / N = 1 / (2*N)) : a = 1/2 := by
  rw [div_eq_div_iff (ne_of_gt hN) (by positivity)] at h
  have h4 : (2*a - 1) * N = 0 := by ring_nf; ring_nf at h; linarith
  rcases mul_eq_zero.1 h4 with h5 | h5
  · linarith
  · exact absurd h5 (ne_of_gt hN)

/-- The computable quantization `pyRound` satisfies the ties-to-even
characterisation `IsBankersRound`. -/
theorem pyRound_bankers (x : ℚ) (n : ℕ) : IsBankersRound x n (pyRound x n) := by
  have hNpos : (0:ℚ) < ((10 ^ n : ℕ) : ℚ) := by positivity
  set N : ℚ := ((10 ^ n : ℕ) : ℚ) with hN
  set y : ℚ := x * N with hy
  have hxy : x = y / N := by field_simp
  set q : ℤ := ⌊y⌋ with hq
  have hr0 : (0:ℚ) ≤ y - q := sub_nonneg.2 (Int.floor_le y)
  have hr1 : y - q < 1 := by
    have := Int.lt_floor_add_one y
    rw [← hq] at this
    linarith
  have hxv : ∀ z : ℤ, |x - (z:ℚ)/N| = |y - z| / N := by
    intro z
    rw [hxy, div_sub_div_same, abs_div, abs_of_pos hNpos]
  have dq : |x - (q:ℚ)/N| = (y - q) / N := by
    rw [hxv q, abs_of_nonneg hr0]
  have dq1 : |x - ((q + 1 : ℤ):ℚ)/N| = (1 - (y - q)) / N := by
    rw [hxv (q+1)]
    push_cast
    rw [abs_of_nonpos (by linarith)]
    ring_nf
  have hpy : pyRound x n = ((roundHalfEvenInt y : ℤ) : ℚ) / N := by
    rw [pyRound, ← hy, ← hN]
  rw [roundHalfEvenInt_eq, ← hq] at hpy
  by_cases h1 : y - q < 1/2
  · rw [if_pos h1] at hpy
    refine ⟨⟨q, hpy, ?_⟩, ?_⟩
    · intro hties
      rw [hpy, dq] at hties
      have := eq_half_of_div hNpos hties
      linarith
    · rw [hpy, dq]
      exact div_le_half_div hNpos (by linarith)
  · by_cases h2 : 1/2 < y - q
    · rw [if_neg h1, if_pos h2] at hpy
      refine ⟨⟨q + 1, hpy, ?_⟩, ?_⟩
      · intro hties
        rw [hpy, dq1] at hties
        have := eq_half_of_div hNpos hties
        linarith
      · rw [hpy, dq1]
        exact div_le_half_div hNpos (by linarith)
    · have hhalf : y - q = 1/2 := by linarith
      rw [if_neg h1, if_neg h2] at hpy
      by_cases h3 : q % 2 = 0
      · rw [if_pos h3] at hpy
        refine ⟨⟨q, hpy, fun _ => h3⟩, ?_⟩
        rw [hpy, dq, hhalf]
        exact div_le_half_div hNpos le_rfl
      · rw [if_neg h3] at hpy
        refine ⟨⟨q + 1, hpy, fun _ => by omega⟩, ?_⟩
        rw [hpy, dq1, hhalf]
        have h12 : (1 : ℚ) - 1/2 = 1/2 := by norm_num
        rw [h12]
        exact div_le_half_div hNpos le_rfl

/-- Equation for one step of the dimension phase. -/
theorem insertDims_cons {α : Type} [DecidableEq α] (t : List α) (ts : List (List α))
    (v : α) (vs : List α) :
    insertDims (t :: ts) (v :: vs) =
      if v ∈ t then
        (t :: (insertDims ts vs).1, (insertDims ts vs).2.1,
          (t.indexOf v + 1) :: (insertDims ts vs).2.2)
      else
        ((t ++ [v]) :: (insertDims ts vs).1, true,
          ((t ++ [v]).indexOf v + 1) :: (insertDims ts vs).2.2) := by
  by_cases hv : v ∈ t
  · rw [if_pos hv]
    simp only [insertDims]
    rw [if_pos hv]
    simp
  · rw [if_neg hv]
    simp only [insertDims]
    rw [if_neg hv]
    simp

/-- Running the dimension phase again on the same values succeeds for
no dimension (they are all present) and resolves the same ids. -/
theorem insertDims_idem {α : Type} [DecidableEq α] (dims : List (List α)) (d : List α) :
    insertDims (insertDims dims d).1 d =
      ((insertDims dims d).1, false, (insertDims dims d).2.2) := by
  induction dims generalizing d with
  | nil => cases d <;> simp [insertDims]
  | cons t ts ih =>
    cases d with
    | nil => simp [insertDims]
    | cons v vs =>
      rw [insertDims_cons]
      by_cases hv : v ∈ t
      · rw [if_pos hv]
        rw [insertDims_cons, if_pos hv, ih]
      · rw [if_neg hv]
        have hv2 : v ∈ t ++ [v] := by simp
        rw [insertDims_cons, if_pos hv2, ih]

/-- Equation for one row of `insert_joined_table.go`. -/
theorem insert_go_cons {α β : Type} [DecidableEq α] (st : JoinState α β) (flag : Bool)
    (r : JoinRow α β) (rs : List (JoinRow α β)) :
    insert_joined_table.go st flag (r :: rs) =
      ((insert_joined_table.go
          ⟨(insertDims st.dims r.dims).1,
           if flag || (insertDims st.dims r.dims).2.1 then
             st.facts ++ [((insertDims st.dims r.dims).2.2, r.fact)]
           else st.facts⟩
          (flag || (insertDims st.dims r.dims).2.1) rs).1,
       (flag || (insertDims st.dims r.dims).2.1) ::
        (insert_joined_table.go
          ⟨(insertDims st.dims r.dims).1,
           if flag || (insertDims st.dims r.dims).2.1 then
             st.facts ++ [((insertDims st.dims r.dims).2.2, r.fact)]
           else st.facts⟩
          (flag || (insertDims st.dims r.dims).2.1) rs).2) := rfl

/-! ## Claims -/

/-- Claim C1, counterexample: in one `insert_joined_table` call with
two rows of identical dimension values, the second row — whose own
dimension inserts all fail — is still reported fresh and its fact row
is inserted, so the call produces two fact rows, not one. -/
theorem claim_C1_counterexample :
    insert_joined_table (⟨[[]], []⟩ : JoinState ℕ ℕ) [⟨[7], 1⟩, ⟨[7], 2⟩] =
      (⟨[[7]], [([1], 1), ([1], 2)]⟩, [true, true]) ∧
    (insertDims [[7]] [7]).2.1 = false := by
  exact ⟨by decide, by decide⟩

/-- Claim C1, amended: the freshness flag is per call and sticky, so a
row is treated as fresh iff some dimension insert succeeded for it or
for an earlier row of the same call.  Two rows with identical (new)
dimension values in one call both insert fact rows and are both
reported fresh; the same two rows in successive calls produce exactly
one fact row, with the second call reported not-fresh and the state
unchanged. -/
theorem claim_C1_amended {α β : Type} [DecidableEq α] (st : JoinState α β) (d : List α)
    (f1 f2 : β) (hfresh : (insertDims st.dims d).2.1 = true) :
    (insert_joined_table st [⟨d, f1⟩, ⟨d, f2⟩]).2 = [true, true] ∧
    ((insert_joined_table st [⟨d, f1⟩, ⟨d, f2⟩]).1).facts
      = st.facts ++ [((insertDims st.dims d).2.2, f1), ((insertDims st.dims d).2.2, f2)] ∧
    (insert_joined_table (insert_joined_table st [⟨d, f1⟩]).1 [⟨d, f2⟩]).2 = [false] ∧
    (insert_joined_table (insert_joined_table st [⟨d, f1⟩]).1 [⟨d, f2⟩]).1
      = (insert_joined_table st [⟨d, f1⟩]).1 := by
  have hidem := insertDims_idem st.dims d
  have hcall1 : insert_joined_table st [(⟨d, f1⟩ : JoinRow α β)] =
      (⟨(insertDims st.dims d).1, st.facts ++ [((insertDims st.dims d).2.2, f1)]⟩, [true]) := by
    unfold insert_joined_table
    rw [insert_go_cons]
    simp [insert_joined_table.go, hfresh]
  have hcall2 : insert_joined_table
      (⟨(insertDims st.dims d).1,
        st.facts ++ [((insertDims st.dims d).2.2, f1)]⟩ : JoinState α β)
      [(⟨d, f2⟩ : JoinRow α β)] =
      (⟨(insertDims st.dims d).1, st.facts ++ [((insertDims st.dims d).2.2, f1)]⟩, [false]) := by
    unfold insert_joined_table
    rw [insert_go_cons]
    simp [insert_joined_table.go, hidem]
  refine ⟨?_, ?_, ?_, ?_⟩
  · unfold insert_joined_table
    rw [insert_go_cons, insert_go_cons]
    simp [insert_joined_table.go, hfresh, hidem]
  · unfold insert_joined_table
    rw [insert_go_cons, insert_go_cons]
    simp [insert_joined_table.go, hfresh, hidem]
  · rw [hcall1]
    simp [hcall2]
  · rw [hcall1]
    simp [hcall2]

/-- Claim C1, witness: the amended statement evaluated at a concrete
state and row. -/
theorem claim_C1_witness :
    (insertDims ([[]] : List (List ℕ)) [7]).2.1 = true ∧
    ((insert_joined_table (⟨[[]], []⟩ : JoinState ℕ ℕ) [⟨[7], 3⟩, ⟨[7], 4⟩]).2 = [true, true] ∧
     ((insert_joined_table (⟨[[]], []⟩ : JoinState ℕ ℕ) [⟨[7], 3⟩, ⟨[7], 4⟩]).1).facts
       = [] ++ [((insertDims ([[]] : List (List ℕ)) [7]).2.2, 3),
                ((insertDims ([[]] : List (List ℕ)) [7]).2.2, 4)] ∧
     (insert_joined_table
        (insert_joined_table (⟨[[]], []⟩ : JoinState ℕ ℕ) [⟨[7], 3⟩]).1 [⟨[7], 4⟩]).2 = [false] ∧
     (insert_joined_table
        (insert_joined_table (⟨[[]], []⟩ : JoinState ℕ ℕ) [⟨[7], 3⟩]).1 [⟨[7], 4⟩]).1
       = (insert_joined_table (⟨[[]], []⟩ : JoinState ℕ ℕ) [⟨[7], 3⟩]).1) :=
  ⟨by decide, claim_C1_amended ⟨[[]], []⟩ [7] 3 4 (by decide)⟩

/-- Claim C2: at a cable element whose natural key has no catalog row,
`W._sql_query` evaluates `None / 1000 * length` before the property's
null check, so all four impedance properties fail with `TypeError`
instead of the catalogued `ValueError`; a non-cable element with a
missing key does fail with the `ValueError` whose message carries the
element's textual form. -/
theorem claim_C2_cable_null_check :
    (resistance_r1 catEmpty (.W "ВВГ" 3 4 20) =
        .error (.typeError "unsupported operand type(s) for /: 'NoneType' and 'int'") ∧
     reactance_x1 catEmpty (.W "ВВГ" 3 4 20) =
        .error (.typeError "unsupported operand type(s) for /: 'NoneType' and 'int'") ∧
     resistance_r0 catEmpty (.W "ВВГ" 3 4 20) =
        .error (.typeError "unsupported operand type(s) for /: 'NoneType' and 'int'") ∧
     reactance_x0 catEmpty (.W "ВВГ" 3 4 20) =
        .error (.typeError "unsupported operand type(s) for /: 'NoneType' and 'int'")) ∧
    (∀ msg, resistance_r1 catEmpty (.W "ВВГ" 3 4 20) ≠ .error (.valueError msg)) ∧
    resistance_r1 catEmpty (.QF 25) =
      .error (.valueError
        ("The resistance R1 for '" ++ strElem (.QF 25) ++ "' is not found in the database!")) := by
  refine ⟨⟨rfl, rfl, rfl, rfl⟩, ?_, rfl⟩
  intro msg h
  have e1 : resistance_r1 catEmpty (.W "ВВГ" 3 4 20) =
      .error (.typeError "unsupported operand type(s) for /: 'NoneType' and 'int'") := rfl
  rw [e1] at h
  injection h with h2
  exact PyErr.noConfusion h2

/-- Claim C3, counterexample: a body raising an exception that is not
an `OperationalError` (here a `ValueError`) is re-raised with the
session closed but *without* a rollback. -/
theorem claim_C3_counterexample :
    session_scope false true (.raises (.other "ValueError" "boom")) =
      ([.close], some (.other "ValueError" "boom")) ∧
    SessAct.rollback ∉ (session_scope false true (.raises (.other "ValueError" "boom"))).1 := by
  constructor
  · rfl
  · decide

/-- Claim C3, amended: `session_scope` commits exactly on normal exit,
rolls back exactly on `OperationalError` (other exceptions propagate
without an explicit rollback), re-raises every body exception, and
closes the session on every exit path. -/
theorem claim_C3_amended (sqlite logs : Bool) (body : BodyOutcome) :
    (session_scope sqlite logs body).1.getLast? = some .close ∧
    ((session_scope sqlite logs body).2 = none ↔ body = .normal) ∧
    (SessAct.commit ∈ (session_scope sqlite logs body).1 ↔ body = .normal) ∧
    (SessAct.rollback ∈ (session_scope sqlite logs body).1 ↔
      ∃ m, body = .raises (.operationalError m)) ∧
    (∀ e, body = .raises e → (session_scope sqlite logs body).2 = some e) := by
  cases body with
  | normal => cases sqlite <;> simp [session_scope]
  | raises e => cases e <;> cases sqlite <;> cases logs <;> simp [session_scope]

/-- Claim C3, witness: the amended statement applied to a concrete
non-operational exception. -/
theorem claim_C3_witness :
    (session_scope true true (.raises (.other "KeyError" "k"))).2 =
      some (.other "KeyError" "k") :=
  (claim_C3_amended true true (.raises (.other "KeyError" "k"))).2.2.2.2
    (.other "KeyError" "k") rfl

/-- Claim C4, counterexample: with voltage `Decimal('8.7')`, accuracy
26 and a catalog row `r1 = 3, x1 = 4` (so `z₃ = 5` exactly), the
unrounded three-phase current ends in an exact 5-tail; the code
returns the half-to-even rounding `…36`, not the half-away-from-zero
value `…37` the claim asserts. -/
theorem claim_C4_counterexample :
    three_phase_current_short_circuit exactFM catContactK cfgTie chainK =
      .ok ((100458946838994888844940736 : ℚ) / 10 ^ 26) ∧
    threePhaseRaw exactFM catContactK cfgTie chainK =
      .ok ((1004589468389948888449407365 : ℚ) / 10 ^ 27) ∧
    pyRoundHalfAway ((1004589468389948888449407365 : ℚ) / 10 ^ 27) 26 =
      (100458946838994888844940737 : ℚ) / 10 ^ 26 ∧
    ((100458946838994888844940736 : ℚ) / 10 ^ 26) ≠
      (100458946838994888844940737 : ℚ) / 10 ^ 26 := by
  refine ⟨by decide!, by decide!, by decide!, by decide!⟩

/-- Claim C4, amended: each returned current is the quantization of
its unrounded value to `CALCULATIONS_ACCURACY` places with
round-half-to-even (banker's rounding, the `decimal` default), not
half-away-from-zero. -/
theorem claim_C4_amended (fm : FloatModel) (cat : Catalog) (cfg : Config) (c : ElemChain) :
    (∀ v, three_phase_current_short_circuit fm cat cfg c = .ok v →
      ∃ u, threePhaseRaw fm cat cfg c = .ok u ∧ v = pyRound u cfg.acc ∧
        IsBankersRound u cfg.acc v) ∧
    (∀ v, two_phase_current_short_circuit fm cat cfg c = .ok v →
      ∃ u, twoPhaseRaw fm cat cfg c = .ok u ∧ v = pyRound u cfg.acc ∧
        IsBankersRound u cfg.acc v) ∧
    (∀ v, one_phase_current_short_circuit fm cat cfg c = .ok v →
      ∃ u, onePhaseRaw fm cat cfg c = .ok u ∧ v = pyRound u cfg.acc ∧
        IsBankersRound u cfg.acc v) := by
  refine ⟨?_, ?_, ?_⟩
  · intro v h
    cases hz : threePhaseZ fm cat c with
    | error e =>
      simp only [three_phase_current_short_circuit, hz] at h
      exact absurd h (by simp)
    | ok z =>
      simp only [three_phase_current_short_circuit, hz] at h
      simp only [threePhaseRaw, hz]
      by_cases h0 : z = 0
      · rw [if_pos h0] at h
        exact absurd h (by simp)
      · rw [if_neg h0] at h
        rw [if_neg h0]
        have hv : v = pyRound (decDiv (decDiv cfg.U sqrtThreeFloat) z) cfg.acc := by
          cases h; rfl
        exact ⟨decDiv (decDiv cfg.U sqrtThreeFloat) z, rfl, hv, hv ▸ pyRound_bankers _ _⟩
  · intro v h
    cases h3 : three_phase_current_short_circuit fm cat cfg c with
    | error e =>
      simp only [two_phase_current_short_circuit, h3] at h
      exact absurd h (by simp)
    | ok i3 =>
      simp only [two_phase_current_short_circuit, h3] at h
      simp only [twoPhaseRaw, h3]
      have hv : v = pyRound (decMul (decDiv sqrtThreeFloat 2) i3) cfg.acc := by
        cases h; rfl
      exact ⟨decMul (decDiv sqrtThreeFloat 2) i3, rfl, hv, hv ▸ pyRound_bankers _ _⟩
  · intro v h
    cases hz : onePhaseZ fm cat c with
    | error e =>
      simp only [one_phase_current_short_circuit, hz] at h
      exact absurd h (by simp)
    | ok z =>
      simp only [one_phase_current_short_circuit, hz] at h
      simp only [onePhaseRaw, hz]
      by_cases h0 : z = 0
      · rw [if_pos h0] at h
        exact absurd h (by simp)
      · rw [if_neg h0] at h
        rw [if_neg h0]
        have hv : v = pyRound (decDiv (decMul sqrtThreeFloat cfg.U) z) cfg.acc := by
          cases h; rfl
        exact ⟨decDiv (decMul sqrtThreeFloat cfg.U) z, rfl, hv, hv ▸ pyRound_bankers _ _⟩

/-- Claim C4, witness: the amended statement evaluated on the concrete
tie-hitting chain. -/
theorem claim_C4_witness :
    ∃ u, threePhaseRaw exactFM catContactK cfgTie chainK = .ok u ∧
      ((100458946838994888844940736 : ℚ) / 10 ^ 26) = pyRound u cfgTie.acc ∧
      IsBankersRound u cfgTie.acc ((100458946838994888844940736 : ℚ) / 10 ^ 26) :=
  (claim_C4_amended exactFM catContactK cfgTie chainK).1
    ((100458946838994888844940736 : ℚ) / 10 ^ 26) (by decide!)

/-- Claim C5, counterexample: the mixed chain text
`"QF(25), A: QS(160)"` is not rejected; it parses to a one-element
mapping chain that silently drops the unprefixed `QF(25)`. -/
theorem claim_C5_counterexample :
    parse_obj (2/5) "QF(25), A: QS(160)" = .ok [.map [("A", .QS 160)]] ∧
    (ElemChain.map [("A", Element.QS 160)]).length = 1 := by
  exact ⟨by decide!, by decide!⟩

/-- Claim C5, amended: a mixed chain text raises no error and parses
as a named mapping of exactly the `name:`-prefixed elements, dropping
the unprefixed ones — shown for a family of mixed inputs with the
unnamed element before the named one (for every pair of digits) and
for an input with the unnamed element after the named one. -/
theorem claim_C5_amended :
    (∀ i j : Fin 10,
      parse_obj (2/5)
          ("QF(2" ++ String.mk [Nat.digitChar i] ++ "), A: QS(1" ++
            String.mk [Nat.digitChar j] ++ ")") =
        .ok [.map [("A", .QS (10 + (j : ℕ)))]]) ∧
    parse_obj (2/5) "B: T(160, 'У/Ун-0'), Line()" =
      .ok [.map [("B", .T 160 "У/Ун-0" (2/5))]] := by
  exact ⟨by decide!, by decide!⟩

/-- Claim C6, counterexample: `drop_table` with a wrong confirmation
leaves the table untouched and logs the refusal, but the bare `raise`
in the `else` branch escapes as a `RuntimeError`, uncaught by the
`OperationalError` handler — the call does raise to the caller. -/
theorem claim_C6_counterexample :
    drop_table ["transformer"] "transformer" (some "oops") false =
      (["transformer"],
       [.error "Table 'transformer' has not been deleted. Deleting not confirmed."],
       .error (.other "RuntimeError" "No active exception to re-raise")) ∧
    (drop_table ["transformer"] "transformer" (some "oops") false).2.2 ≠ .ok () := by
  exact ⟨by decide, by decide⟩

/-- Claim C6, amended: for every confirmation different from the table
name, `drop_table` leaves the state unchanged and reports the deletion
as unconfirmed, but raises a `RuntimeError` to the caller. -/
theorem claim_C6_amended (tables : List String) (name : String) (confirm : Option String)
    (forced : Bool) (h : confirm ≠ some name) :
    drop_table tables name confirm forced =
      (tables,
       [.error ("Table '" ++ name ++ "' has not been deleted. Deleting not confirmed.")],
       .error (.other "RuntimeError" "No active exception to re-raise")) := by
  unfold drop_table
  rw [if_neg h]

/-- Claim C6, witness: the amended statement at a concrete table. -/
theorem claim_C6_witness :
    (some "oops" : Option String) ≠ some "power_nominal" ∧
    drop_table ["power_nominal"] "power_nominal" (some "oops") true =
      (["power_nominal"],
       [.error ("Table '" ++ "power_nominal" ++ "' has not been deleted. Deleting not confirmed.")],
       .error (.other "RuntimeError" "No active exception to re-raise")) :=
  ⟨by decide, claim_C6_amended ["power_nominal"] "power_nominal" (some "oops") true (by decide)⟩

/-- Claim C7: for every chain (and every catalog, configuration and
float model), the two-phase current is the three-phase current scaled
by `Decimal(math.sqrt(3)) / 2` and re-rounded to the configured
accuracy, with errors propagated unchanged. -/
theorem claim_C7_two_phase_scaling (fm : FloatModel) (cat : Catalog) (cfg : Config)
    (c : ElemChain) :
    two_phase_current_short_circuit fm cat cfg c =
      (three_phase_current_short_circuit fm cat cfg c).map
        (fun i3 => pyRound (decMul (decDiv sqrtThreeFloat 2) i3) cfg.acc) := by
  unfold two_phase_current_short_circuit
  cases h : three_phase_current_short_circuit fm cat cfg c <;> simp [h, Except.map]

/-- Claim C8: slicing a chain by `[:k]` yields the sub-chain of its
first `k` elements in order (for both the sequence and the mapping
form), slicing by the full length is the identity, and therefore
leaves the three-phase evaluation unchanged. -/
theorem claim_C8_slicing (fm : FloatModel) (cat : Catalog) (cfg : Config)
    (c : ElemChain) (k : ℕ) :
    (c.sliceTo k).elems = c.elems.take k ∧
    c.sliceTo c.length = c ∧
    three_phase_current_short_circuit fm cat cfg (c.sliceTo c.length)
      = three_phase_current_short_circuit fm cat cfg c := by
  have h1 : (c.sliceTo k).elems = c.elems.take k := by
    cases c <;> simp [ElemChain.sliceTo, ElemChain.elems, List.map_take]
  have h2 : c.sliceTo c.length = c := by
    cases c <;> simp [ElemChain.sliceTo, ElemChain.length]
  exact ⟨h1, h2, by rw [h2]⟩

/-- Claim C9: on the empty chain (sequence or mapping form) each of
the three current properties fails with the `TypeError` of `reduce`
over an empty iterable with no initial value, for every catalog,
configuration and float model. -/
theorem claim_C9_empty_chain (fm : FloatModel) (cat : Catalog) (cfg : Config) :
    (three_phase_current_short_circuit fm cat cfg (.seq []) =
      .error (.typeError "reduce() of empty iterable with no initial value") ∧
     two_phase_current_short_circuit fm cat cfg (.seq []) =
      .error (.typeError "reduce() of empty iterable with no initial value") ∧
     one_phase_current_short_circuit fm cat cfg (.seq []) =
      .error (.typeError "reduce() of empty iterable with no initial value")) ∧
    (three_phase_current_short_circuit fm cat cfg (.map []) =
      .error (.typeError "reduce() of empty iterable with no initial value") ∧
     two_phase_current_short_circuit fm cat cfg (.map []) =
      .error (.typeError "reduce() of empty iterable with no initial value") ∧
     one_phase_current_short_circuit fm cat cfg (.map []) =
      .error (.typeError "reduce() of empty iterable with no initial value")) :=
  ⟨⟨rfl, rfl, rfl⟩, ⟨rfl, rfl, rfl⟩⟩

/-- Claim C10: for a key matching no line of the configuration file,
`config_manager` returns `None` both as a reader and as a writer, and
the writer leaves the file contents unchanged. -/
theorem claim_C10_missing_key {V W : Type} (tm : List Char → V) (fmt : W → List Char)
    (file : List (List Char)) (param : String) (v : W)
    (h : findConfigMatch param file = none) :
    config_manager tm fmt file param (none : Option W) = ((none : Option V), file) ∧
    config_manager tm fmt file param (some v) = ((none : Option V), file) := by
  unfold config_manager
  rw [h]
  exact ⟨rfl, rfl⟩

/-- Claim C10, witness: the statement at a concrete one-line file and
missing key. -/
theorem claim_C10_witness :
    findConfigMatch "B" [['A', ' ', '=', ' ', '1']] = none ∧
    (config_manager (fun _ => (0 : ℕ)) (fun _ : ℕ => ([] : List Char))
        [['A', ' ', '=', ' ', '1']] "B" none = (none, [['A', ' ', '=', ' ', '1']]) ∧
     config_manager (fun _ => (0 : ℕ)) (fun _ : ℕ => ([] : List Char))
        [['A', ' ', '=', ' ', '1']] "B" (some 5) = (none, [['A', ' ', '=', ' ', '1']])) :=
  ⟨by decide, claim_C10_missing_key _ _ _ _ 5 (by decide)⟩

end SCC
